import Mathlib

/-!
Verification of the finding-normalization and policy-evaluation core of the
Cloud-SaC-Pipeline repository (three Python scripts: scripts/scan.py,
scripts/security-gate.py, scripts/generate-pr-comment.py).

Modelling conventions:
* Python strings are `String`; the Python substring test `needle in haystack`
  is `strContains haystack needle` (list-infix on the character data).
* A Python dict field accessed with `d.get(key)` is an `Option` field;
  `d.get(key, default)` is `Option.getD`.
* Python code that can raise returns `Except String _`, the error string
  naming the exception.
* `SecurityGate.evaluate` is modelled at the point after file loading:
  its input is `Option CheckovData`, where `none` stands for the falsy dict
  returned when the results file is absent (the `if not checkov_data` branch),
  and `some d` for a truthy parsed JSON document.  Printed messages and the
  `reasons` list are modelled together as the returned list of strings.
-/

/-- Python `needle in haystack` on strings: substring containment. -/
def strContains (haystack needle : String) : Bool :=
  decide (needle.data <:+: haystack.data)

/-- `SecurityGate.categorize_severity` (scripts/security-gate.py, lines 27-36). -/
def categorize_severity (check_id : String) : String :=
  if strContains check_id "CKV_GCP_62" || strContains check_id "CKV_GCP_6" ||
      strContains check_id "CKV_GCP_14" then
    "CRITICAL"
  else if strContains check_id "CKV_GCP" || strContains check_id "CKV_AWS" then
    "HIGH"
  else if strContains check_id "CKV2" then
    "MEDIUM"
  else
    "LOW"

/-- `SecurityScanner._map_checkov_severity` (scripts/scan.py, lines 255-266),
on a string argument.  Critical patterns `["CKV_GCP_6", "CKV_GCP_62", "CKV_GCP_14"]`,
high patterns `["CKV_GCP_", "CKV_AWS_"]`, default `MEDIUM`. -/
def map_checkov_severity (check_id : String) : String :=
  if strContains check_id "CKV_GCP_6" || strContains check_id "CKV_GCP_62" ||
      strContains check_id "CKV_GCP_14" then
    "CRITICAL"
  else if strContains check_id "CKV_GCP_" || strContains check_id "CKV_AWS_" then
    "HIGH"
  else
    "MEDIUM"

/-- The inline severity classification inside `categorize_by_severity`
(scripts/generate-pr-comment.py, lines 33-41). -/
def prcomment_severity (check_id : String) : String :=
  if strContains check_id "CKV_GCP_62" || strContains check_id "CKV_GCP_6" ||
      strContains check_id "CKV_GCP_14" then
    "CRITICAL"
  else if strContains check_id "CKV_GCP" || strContains check_id "CKV_AWS" then
    "HIGH"
  else if strContains check_id "CKV2" then
    "MEDIUM"
  else
    "LOW"

/-- `SecurityScanner._map_checkov_severity` as called in `run_checkov`
(scripts/scan.py, line 156) with `check_type.get("check_id")`: when the
`check_id` key is absent, `get` yields `None`, and the Python substring test
`pattern in None` raises a `TypeError`. -/
def map_checkov_severity_py : Option String → Except String String
  | none => Except.error "TypeError: argument of type NoneType is not iterable"
  | some cid => Except.ok (map_checkov_severity cid)

/-- One raw failed-check record from the Checkov JSON
(an element of `results.failed_checks`); every field may be absent. -/
structure CheckovCheck where
  check_id : Option String
  check_name : Option String
  file_path : Option String
  resource : Option String
  file_line_range : Option (List Int)
  guideline : Option String
deriving DecidableEq, Repr

/-- One normalized finding as built by `SecurityScanner.run_checkov`
(scripts/scan.py, lines 150-158). -/
structure ScanFinding where
  check_id : Option String
  check_name : Option String
  file : Option String
  resource : Option String
  severity : String
  guideline : String
deriving DecidableEq, Repr

/-- The normalization of one raw Checkov record performed by
`SecurityScanner.run_checkov` (scripts/scan.py, lines 150-158): the severity
is computed by `_map_checkov_severity(check_type.get("check_id"))`, which
raises when the record has no `check_id`; `guideline` defaults to the empty
string, the other fields are passed through as-is. -/
def normalize_checkov_finding (c : CheckovCheck) : Except String ScanFinding :=
  match map_checkov_severity_py c.check_id with
  | Except.error e => Except.error e
  | Except.ok sev =>
      Except.ok
        { check_id := c.check_id
          check_name := c.check_name
          file := c.file_path
          resource := c.resource
          severity := sev
          guideline := c.guideline.getD "" }

/-- One raw tfsec finding record (`results` element of the tfsec JSON). -/
structure TfsecRaw where
  rule_id : Option String
  description : Option String
  severity : Option String
  filename : Option String
  start_line : Option Int
deriving DecidableEq, Repr

/-- One normalized tfsec finding as built by `SecurityScanner.run_tfsec`
(scripts/scan.py, lines 228-235). -/
structure TfsecFinding where
  rule_id : Option String
  description : Option String
  severity : String
  file : Option String
  line : Option Int
deriving DecidableEq, Repr

/-- Python `str.upper()`, character-wise upper-casing. -/
def pyUpper (s : String) : String :=
  String.mk (s.data.map Char.toUpper)

/-- The severity normalization in `run_tfsec` (scripts/scan.py, line 232):
`finding.get("severity", "UNKNOWN").upper()`. -/
def tfsec_severity (sev : Option String) : String :=
  pyUpper (sev.getD "UNKNOWN")

/-- The normalization of one raw tfsec record performed by
`SecurityScanner.run_tfsec` (scripts/scan.py, lines 228-235). -/
def normalize_tfsec_finding (f : TfsecRaw) : TfsecFinding :=
  { rule_id := f.rule_id
    description := f.description
    severity := tfsec_severity f.severity
    file := f.filename
    line := f.start_line }

/-- Python `text[:k]` on a string: the first `k` characters. -/
def pyTake (s : String) (k : Nat) : String :=
  String.mk (s.data.take k)

/-- `truncate_text` (scripts/generate-pr-comment.py, lines 48-52):
return the text unchanged when within the bound, else the first
`max_length - 3` characters followed by `"..."`.  Being a function of its
arguments, it is deterministic by construction. -/
def truncate_text (text : String) (max_length : Nat) : String :=
  if text.length ≤ max_length then text
  else pyTake text (max_length - 3) ++ "..."

/-- Python `path.lstrip(sep)` for the single-character set `/`
(scripts/generate-pr-comment.py, lines 136, 163 and 203): drop the leading
run of `/` characters. -/
def lstripSlash (p : String) : String :=
  String.mk (p.data.dropWhile (fun c => c == '/'))

/-- The per-severity tallies kept in the `severity_counts` dict of
`SecurityGate.evaluate` (scripts/security-gate.py, lines 52-57). -/
structure SevCounts where
  critical : Nat
  high : Nat
  medium : Nat
  low : Nat
deriving DecidableEq, Repr

/-- `severity_counts[severity] += 1` for the value returned by
`categorize_severity`, which is always one of the four keys of the dict. -/
def bump (counts : SevCounts) (sev : String) : SevCounts :=
  if sev = "CRITICAL" then { counts with critical := counts.critical + 1 }
  else if sev = "HIGH" then { counts with high := counts.high + 1 }
  else if sev = "MEDIUM" then { counts with medium := counts.medium + 1 }
  else { counts with low := counts.low + 1 }

/-- The counting loop of `SecurityGate.evaluate` (scripts/security-gate.py,
lines 59-61): `severity = categorize_severity(check.get('check_id', ''))`,
then increment that severity's bucket. -/
def severity_counts (checks : List CheckovCheck) : SevCounts :=
  checks.foldl
    (fun acc check => bump acc (categorize_severity (check.check_id.getD "")))
    ⟨0, 0, 0, 0⟩

/-- The reason string appended at scripts/security-gate.py lines 79-82. -/
def criticalReason (count maxAllowed : Nat) : String :=
  "Critical issues: " ++ toString count ++ " (max allowed: " ++
    toString maxAllowed ++ ")"

/-- The reason string appended at scripts/security-gate.py lines 86-89. -/
def highReason (count maxAllowed : Nat) : String :=
  "High severity issues: " ++ toString count ++ " (max allowed: " ++
    toString maxAllowed ++ ")"

/-- The message printed on the missing-scan-data path
(scripts/security-gate.py, line 46). -/
def noDataMsg : String :=
  "No scan results found - failing by default"

/-- The threshold evaluation of `SecurityGate.evaluate` on the loaded list of
failed checks (scripts/security-gate.py, lines 49-104): start from
`passed = True, reasons = []`; if the critical count exceeds `max_critical`,
set `passed = False` and append the critical reason; if the high count exceeds
`max_high`, set `passed = False` and append the high reason; return both. -/
def evaluate_checks (checks : List CheckovCheck) (max_critical max_high : Nat) :
    Bool × List String :=
  let counts := severity_counts checks
  let step1 : Bool × List String :=
    if counts.critical > max_critical then
      (false, [criticalReason counts.critical max_critical])
    else (true, [])
  let step2 : Bool × List String :=
    if counts.high > max_high then
      (false, step1.2 ++ [highReason counts.high max_high])
    else step1
  step2

/-- The `results` object of the Checkov JSON document, as read by
`checkov_data.get('results', {}).get('failed_checks', [])`. -/
structure CheckovResults where
  failed_checks : Option (List CheckovCheck)
deriving DecidableEq, Repr

/-- A truthy (non-empty) parsed Checkov results document. -/
structure CheckovData where
  results : Option CheckovResults
deriving DecidableEq, Repr

/-- `checkov_data.get('results', {}).get('failed_checks', [])`
(scripts/security-gate.py, line 49). -/
def failed_checks_of (d : CheckovData) : List CheckovCheck :=
  match d.results with
  | none => []
  | some r => r.failed_checks.getD []

/-- `SecurityGate.evaluate` (scripts/security-gate.py, lines 38-104), from the
point after `load_checkov_results`: `none` is the falsy dict obtained when the
results file is absent (lines 44-47, fail-closed with the missing-data
message), `some d` a truthy document, evaluated against the thresholds. -/
def evaluate (checkov_data : Option CheckovData) (max_critical max_high : Nat) :
    Bool × List String :=
  match checkov_data with
  | none => (false, [noDataMsg])
  | some d => evaluate_checks (failed_checks_of d) max_critical max_high

/-- If one pattern occurs inside another, any string containing the larger
pattern contains the smaller one. -/
theorem strContains_mono (s : String) {n₁ n₂ : String}
    (hsub : n₁.data <:+: n₂.data) (h : strContains s n₂ = true) :
    strContains s n₁ = true := by
  rw [strContains, decide_eq_true_iff] at h ⊢
  exact hsub.trans h

/-- Contrapositive form of `strContains_mono`. -/
theorem strContains_false_of_supset (s : String) {n₁ n₂ : String}
    (hsub : n₁.data <:+: n₂.data) (h : strContains s n₁ = false) :
    strContains s n₂ = false := by
  cases hc : strContains s n₂ with
  | false => rfl
  | true =>
      have h1 := strContains_mono s hsub hc
      rw [h] at h1
      exact Bool.noConfusion h1

/-- Claim C1: for every loaded Checkov results document and every pair of
thresholds, `SecurityGate.evaluate` passes iff the critical count is at most
`max_critical` and the high count is at most `max_high`; since the code
compares with strict `>`, the boundary case of a count equal to its threshold
(zero thresholds included) passes. -/
theorem gate_passed_iff_thresholds (d : CheckovData) (mc mh : Nat) :
    (evaluate (some d) mc mh).1 = true ↔
      (severity_counts (failed_checks_of d)).critical ≤ mc ∧
      (severity_counts (failed_checks_of d)).high ≤ mh := by
  by_cases h1 : (severity_counts (failed_checks_of d)).critical > mc <;>
    by_cases h2 : (severity_counts (failed_checks_of d)).high > mh <;>
    · simp [evaluate, evaluate_checks, h1, h2]
      try omega

/-- Boundary instance of C1: one CRITICAL finding with `max_critical = 1`
passes the gate. -/
theorem gate_passed_iff_thresholds_witness :
    (evaluate (some ⟨some ⟨some [⟨some "CKV_GCP_62", none, none, none, none, none⟩]⟩⟩)
      1 5).1 = true :=
  (gate_passed_iff_thresholds
    ⟨some ⟨some [⟨some "CKV_GCP_62", none, none, none, none, none⟩]⟩⟩ 1 5).mpr
    ⟨by decide, by decide⟩

/-- Claim C2: with the results file absent, `SecurityGate.evaluate` fails
closed with the missing-scan-data message, which differs from every
threshold-violation reason string; a loaded document with zero findings
passes instead. -/
theorem gate_fail_closed_on_missing_results (mc mh : Nat) (d : CheckovData)
    (hd : failed_checks_of d = []) :
    evaluate none mc mh = (false, [noDataMsg]) ∧
    (∀ c m, noDataMsg ≠ criticalReason c m ∧ noDataMsg ≠ highReason c m) ∧
    evaluate (some d) mc mh = (true, []) := by
  refine ⟨rfl, ?_, ?_⟩
  · intro c m
    constructor
    · intro h
      have h2 : noDataMsg.data.head? = (criticalReason c m).data.head? := by rw [h]
      have e1 : noDataMsg.data.head? = some 'N' := rfl
      have e2 : (criticalReason c m).data.head? = some 'C' := rfl
      rw [e1, e2] at h2
      exact absurd h2 (by decide)
    · intro h
      have h2 : noDataMsg.data.head? = (highReason c m).data.head? := by rw [h]
      have e1 : noDataMsg.data.head? = some 'N' := rfl
      have e2 : (highReason c m).data.head? = some 'H' := rfl
      rw [e1, e2] at h2
      exact absurd h2 (by decide)
  · simp [evaluate, evaluate_checks, hd, severity_counts]

/-- Concrete instance of C2: absent file fails with the missing-data message,
an empty failed-check list passes. -/
theorem gate_fail_closed_on_missing_results_witness :
    evaluate none 0 5 = (false, [noDataMsg]) ∧
    evaluate (some ⟨some ⟨some []⟩⟩) 0 5 = (true, []) :=
  have h := gate_fail_closed_on_missing_results 0 5 ⟨some ⟨some []⟩⟩ rfl
  ⟨h.1, h.2.2⟩

/-- Claim C3: a check id containing any member of the critical-pattern set
classifies as CRITICAL in all three classifier copies, regardless of whether
it also contains the broader high-risk provider patterns (the critical tier
is tested first and takes precedence). -/
theorem critical_pattern_precedence (s : String)
    (h : strContains s "CKV_GCP_62" = true ∨ strContains s "CKV_GCP_6" = true ∨
         strContains s "CKV_GCP_14" = true) :
    categorize_severity s = "CRITICAL" ∧ map_checkov_severity s = "CRITICAL" ∧
    prcomment_severity s = "CRITICAL" := by
  rcases h with h | h | h <;>
    exact ⟨by simp [categorize_severity, h], by simp [map_checkov_severity, h],
      by simp [prcomment_severity, h]⟩

/-- Concrete instance of C3: `CKV_GCP_62` contains the high-risk provider
pattern `CKV_GCP` yet classifies as CRITICAL everywhere. -/
theorem critical_pattern_precedence_witness :
    strContains "CKV_GCP_62" "CKV_GCP" = true ∧
    (categorize_severity "CKV_GCP_62" = "CRITICAL" ∧
     map_checkov_severity "CKV_GCP_62" = "CRITICAL" ∧
     prcomment_severity "CKV_GCP_62" = "CRITICAL") :=
  ⟨by decide, critical_pattern_precedence "CKV_GCP_62" (Or.inl (by decide))⟩

/-- Counterexample to claim C4 as stated: the check id `FOO_123` matches no
critical pattern and no provider pattern, yet scan.py's
`_map_checkov_severity` classifies it MEDIUM, not LOW (the other two copies
do return LOW). -/
theorem checkov_default_not_low_cex :
    map_checkov_severity "FOO_123" = "MEDIUM" ∧
    map_checkov_severity "FOO_123" ≠ "LOW" ∧
    categorize_severity "FOO_123" = "LOW" ∧
    prcomment_severity "FOO_123" = "LOW" :=
  ⟨by decide, by decide, by decide, by decide⟩

/-- Claim C4 as amended: for a check id containing neither `CKV_GCP` nor
`CKV_AWS` (hence matching no critical pattern either), the security-gate and
PR-comment classifiers return MEDIUM when it contains `CKV2` and LOW
otherwise, while scan.py's `_map_checkov_severity` has no CKV2/LOW tier and
returns MEDIUM for every such id. -/
theorem checkov_default_severity_amended (s : String)
    (hg : strContains s "CKV_GCP" = false) (ha : strContains s "CKV_AWS" = false) :
    categorize_severity s = (if strContains s "CKV2" then "MEDIUM" else "LOW") ∧
    prcomment_severity s = (if strContains s "CKV2" then "MEDIUM" else "LOW") ∧
    map_checkov_severity s = "MEDIUM" := by
  have h62 : strContains s "CKV_GCP_62" = false :=
    strContains_false_of_supset s (by decide) hg
  have h6 : strContains s "CKV_GCP_6" = false :=
    strContains_false_of_supset s (by decide) hg
  have h14 : strContains s "CKV_GCP_14" = false :=
    strContains_false_of_supset s (by decide) hg
  have hgu : strContains s "CKV_GCP_" = false :=
    strContains_false_of_supset s (by decide) hg
  have hau : strContains s "CKV_AWS_" = false :=
    strContains_false_of_supset s (by decide) ha
  refine ⟨?_, ?_, ?_⟩ <;>
    simp [categorize_severity, prcomment_severity, map_checkov_severity,
      h62, h6, h14, hg, ha, hgu, hau]

/-- Concrete instance of the amended C4: a compound-check id gets MEDIUM from
all three copies; scan.py agrees here only because its default is MEDIUM. -/
theorem checkov_default_severity_amended_witness :
    strContains "CKV2_ANSIBLE_1" "CKV_GCP" = false ∧
    strContains "CKV2_ANSIBLE_1" "CKV_AWS" = false ∧
    (categorize_severity "CKV2_ANSIBLE_1" =
        (if strContains "CKV2_ANSIBLE_1" "CKV2" then "MEDIUM" else "LOW") ∧
      prcomment_severity "CKV2_ANSIBLE_1" =
        (if strContains "CKV2_ANSIBLE_1" "CKV2" then "MEDIUM" else "LOW") ∧
      map_checkov_severity "CKV2_ANSIBLE_1" = "MEDIUM") :=
  ⟨by decide, by decide,
    checkov_default_severity_amended "CKV2_ANSIBLE_1" (by decide) (by decide)⟩

/-- Counterexample to claim C5 as stated: the three severity-classification
copies are not the same function; on `XYZ` scan.py returns MEDIUM while the
security gate returns LOW. -/
theorem classifier_copies_differ_cex :
    map_checkov_severity "XYZ" = "MEDIUM" ∧
    categorize_severity "XYZ" = "LOW" ∧
    map_checkov_severity "XYZ" ≠ categorize_severity "XYZ" :=
  ⟨by decide, by decide, by decide⟩

/-- Claim C5 as amended: the security-gate and PR-comment classifiers compute
the same function on every check id, but scan.py's `_map_checkov_severity`
disagrees with them (for example on `CKV_NCP_1`). -/
theorem classifier_agreement_amended :
    (∀ s, categorize_severity s = prcomment_severity s) ∧
    map_checkov_severity "CKV_NCP_1" ≠ categorize_severity "CKV_NCP_1" :=
  ⟨fun _ => rfl, by decide⟩

/-- Claim C6 (code bug): normalizing a raw Checkov record that has no
`check_id` field does not complete: `run_checkov` passes
`check_type.get("check_id")`, i.e. `None`, to `_map_checkov_severity`, whose
substring test raises a `TypeError` instead of resolving the missing field to
a safe default as the spec requires. -/
theorem normalize_raises_on_missing_check_id :
    normalize_checkov_finding
      ⟨none, some "Ensure the S3 bucket is private", some "/main.tf",
        some "aws_s3_bucket.data", some [1, 10], none⟩ =
      Except.error "TypeError: argument of type NoneType is not iterable" :=
  rfl

/-- Claim C7: for `n ≥ 3`, `truncate_text` returns its input unchanged when
the input is within the bound, and otherwise the first `n - 3` characters
followed by the three-character marker, of length exactly `n`; the output is
never longer than `n`.  Determinism is immediate since the model is a
function of its arguments. -/
theorem truncate_text_spec (s : String) (n : Nat) (h : 3 ≤ n) :
    (s.length ≤ n → truncate_text s n = s) ∧
    (n < s.length →
      truncate_text s n = pyTake s (n - 3) ++ "..." ∧
      (truncate_text s n).length = n) ∧
    (truncate_text s n).length ≤ n := by
  have hdata : s.data.length = s.length := rfl
  by_cases hle : s.length ≤ n
  · refine ⟨fun _ => by simp [truncate_text, hle], fun hlt => absurd hle (by omega), ?_⟩
    simp only [truncate_text, if_pos hle]
    exact hle
  · have hlen : (pyTake s (n - 3) ++ "...").length = n := by
      rw [String.length_append, pyTake, String.length_mk, List.length_take]
      show min (n - 3) s.data.length + 3 = n
      omega
    refine ⟨fun hc => absurd hc hle, fun _ => ⟨by simp [truncate_text, hle], ?_⟩, ?_⟩
    · simp [truncate_text, hle, hlen]
    · simp [truncate_text, hle, hlen]

/-- Concrete instance of C7: an eight-character string truncated to five
characters keeps two characters and appends the marker. -/
theorem truncate_text_spec_witness :
    truncate_text "abcdefgh" 5 = pyTake "abcdefgh" 2 ++ "..." ∧
    (truncate_text "abcdefgh" 5).length = 5 ∧
    (truncate_text "abcdefgh" 5).length ≤ 5 :=
  have h := truncate_text_spec "abcdefgh" 5 (by decide)
  ⟨((h.2.1 (by decide)).1), ((h.2.1 (by decide)).2), h.2.2⟩

/-- Counterexample to claim C8 as stated: a tfsec finding whose severity
string `banana` is outside the recognized vocabulary normalizes to `BANANA`
(the upper-cased input), not to `UNKNOWN`. -/
theorem tfsec_unrecognized_severity_cex :
    (normalize_tfsec_finding
        ⟨some "custom-rule", some "description", some "banana", some "main.tf",
          some 3⟩).severity = "BANANA" ∧
    (normalize_tfsec_finding
        ⟨some "custom-rule", some "description", some "banana", some "main.tf",
          some 3⟩).severity ≠ "UNKNOWN" :=
  ⟨by decide, by decide⟩

/-- Claim C8 as amended: the normalized tfsec severity is the upper-cased
form of whatever severity string the tool supplied, and only an absent
severity field defaults to `UNKNOWN`; unrecognized strings pass through
upper-cased rather than mapping to `UNKNOWN`. -/
theorem tfsec_severity_amended (f : TfsecRaw) (s : String) :
    (f.severity = some s → (normalize_tfsec_finding f).severity = pyUpper s) ∧
    (f.severity = none → (normalize_tfsec_finding f).severity = "UNKNOWN") := by
  constructor
  · intro hs
    simp [normalize_tfsec_finding, tfsec_severity, hs]
  · intro hs
    simp [normalize_tfsec_finding, tfsec_severity, hs]
    decide

/-- Concrete instance of the amended C8: a supplied severity `high` is
upper-cased to `HIGH`. -/
theorem tfsec_severity_amended_witness :
    (normalize_tfsec_finding
        ⟨some "aws-s3-encryption", some "Bucket is not encrypted", some "high",
          some "main.tf", some 12⟩).severity = pyUpper "high" :=
  (tfsec_severity_amended
    ⟨some "aws-s3-encryption", some "Bucket is not encrypted", some "high",
      some "main.tf", some 12⟩ "high").1 rfl

/-- Dropping a leading run twice is the same as dropping it once. -/
theorem dropWhile_twice {α : Type} (p : α → Bool) (l : List α) :
    (l.dropWhile p).dropWhile p = l.dropWhile p := by
  induction l with
  | nil => rfl
  | cons a t ih =>
      by_cases hpa : p a
      · simp [List.dropWhile_cons, hpa, ih]
      · simp [List.dropWhile_cons, hpa]

/-- Claim C9: the path normalization `file_path.lstrip(sep)` used by
`generate_pr_comment` is idempotent: normalizing an already-normalized path
returns it unchanged. -/
theorem lstrip_slash_idempotent (p : String) :
    lstripSlash (lstripSlash p) = lstripSlash p :=
  congrArg String.mk (dropWhile_twice (fun c => c == '/') p.data)

/-- Tallying factors through the list of `check_id` fields. -/
theorem severity_counts_map (l : List CheckovCheck) :
    severity_counts l =
      (l.map (fun c => c.check_id)).foldl
        (fun acc oid => bump acc (categorize_severity (oid.getD ""))) ⟨0, 0, 0, 0⟩ := by
  rw [severity_counts, List.foldl_map]

/-- Claim C10: the gate verdict is a function of the `check_id` fields alone:
two failed-check lists of equal length agreeing pointwise on `check_id`
produce the same severity counts and the same evaluation result under the
same thresholds, whatever their other fields contain. -/
theorem verdict_depends_only_on_check_ids (l1 l2 : List CheckovCheck) (mc mh : Nat)
    (hlen : l1.length = l2.length)
    (hid : ∀ (i : Nat) (h1 : i < l1.length) (h2 : i < l2.length),
        (l1.get ⟨i, h1⟩).check_id = (l2.get ⟨i, h2⟩).check_id) :
    severity_counts l1 = severity_counts l2 ∧
    evaluate_checks l1 mc mh = evaluate_checks l2 mc mh := by
  have hmap : l1.map (fun c => c.check_id) = l2.map (fun c => c.check_id) := by
    apply List.ext_get
    · simp [hlen]
    · intro i h1 h2
      simp only [List.get_eq_getElem, List.getElem_map]
      exact hid i (by simpa using h1) (by simpa using h2)
  have hc : severity_counts l1 = severity_counts l2 := by
    rw [severity_counts_map, severity_counts_map, hmap]
  exact ⟨hc, by simp [evaluate_checks, hc]⟩

/-- Concrete instance of C10: two single-finding lists sharing a `check_id`
but differing in name, resource, path, line range and guideline evaluate
identically. -/
theorem verdict_depends_only_on_check_ids_witness :
    evaluate_checks
        [⟨some "CKV_AWS_20", some "S3 bucket allows public READ", some "/main.tf",
          some "aws_s3_bucket.data", some [1, 10], some "https"⟩] 0 5 =
      evaluate_checks
        [⟨some "CKV_AWS_20", some "renamed check", some "storage.tf", none, none,
          none⟩] 0 5 :=
  (verdict_depends_only_on_check_ids
    [⟨some "CKV_AWS_20", some "S3 bucket allows public READ", some "/main.tf",
      some "aws_s3_bucket.data", some [1, 10], some "https"⟩]
    [⟨some "CKV_AWS_20", some "renamed check", some "storage.tf", none, none,
      none⟩] 0 5 rfl
    (fun i h1 _ => by
      have hi : i = 0 := Nat.lt_one_iff.mp h1
      subst hi
      rfl)).2
